import Mathlib

/-!
Verification development for the Spine fatal-signal handling subsystem
(`src/error.c`): the monitored-signal table `spine_fatal_signals`, the
handler routine `spine_signal_handler`, and the lifecycle operations
`install_spine_signal_handler` / `uninstall_spine_signal_handler`.

The OS per-signal disposition table is modelled as a total function from
signal numbers to `sigaction` records.  The C library call `signal(sig, h)`
is modelled as replacing only the handler slot of the disposition and
returning the previous handler; `sigaction` reads or writes the whole
record.  Signal numbers are the Linux values used by the program.
-/

namespace Spine

/-- Linux signal number for SIGINT. -/
def SIGINT : Nat := 2

/-- Linux signal number for SIGQUIT. -/
def SIGQUIT : Nat := 3

/-- Linux signal number for SIGABRT. -/
def SIGABRT : Nat := 6

/-- Linux signal number for SIGBUS. -/
def SIGBUS : Nat := 7

/-- Linux signal number for SIGFPE. -/
def SIGFPE : Nat := 8

/-- Linux signal number for SIGSEGV. -/
def SIGSEGV : Nat := 11

/-- Linux signal number for SIGPIPE. -/
def SIGPIPE : Nat := 13

/-- Linux signal number for SIGSYS. -/
def SIGSYS : Nat := 31

/-- The `SA_RESTART` flag bit (Linux value 0x10000000). -/
def SA_RESTART : Nat := 268435456

/-- A signal handler value: the OS default, the ignore disposition, this
subsystem's `spine_signal_handler`, or a handler owned by some other
component (distinguished by an abstract identifier). -/
inductive Handler where
  | SIG_DFL : Handler
  | SIG_IGN : Handler
  | spine : Handler
  | other : Nat → Handler
deriving DecidableEq, Repr

/-- A `struct sigaction`: handler slot, blocked-signal mask and flags. -/
structure Sigaction where
  sa_handler : Handler
  sa_mask : List Nat
  sa_flags : Nat
deriving DecidableEq, Repr

/-- The OS disposition table: one `Sigaction` per signal number. -/
abbrev Dispo : Type := Nat → Sigaction

/-- The sentinel-terminated table `spine_fatal_signals` from `src/error.c`:
SIGINT, SIGPIPE, SIGSEGV, SIGBUS, SIGFPE, SIGQUIT, SIGSYS, SIGABRT, 0. -/
def spine_fatal_signals : List Nat :=
  [SIGINT, SIGPIPE, SIGSEGV, SIGBUS, SIGFPE, SIGQUIT, SIGSYS, SIGABRT, 0]

/-- The signals the loops actually visit: the table up to (excluding) the
terminating 0 sentinel, mirroring `for (i=0; spine_fatal_signals[i]; ++i)`. -/
def spine_monitored : List Nat :=
  spine_fatal_signals.takeWhile (fun s => s != 0)

/-- One iteration of the first install loop: query the disposition via
`sigaction`; if the handler is `SIG_DFL`, write back the spine handler with
an emptied mask and `SA_RESTART` flags. -/
def install1_body (d : Dispo) (sig : Nat) : Dispo :=
  let sa := d sig
  if sa.sa_handler = Handler.SIG_DFL then
    Function.update d sig
      { sa_handler := Handler.spine, sa_mask := [], sa_flags := SA_RESTART }
  else d

/-- One iteration of the second install loop: `ohandler = signal(sig,
spine_signal_handler)`, and if `ohandler` was not `SIG_DFL`, restore it with
`signal(sig, ohandler)`.  `signal` touches only the handler slot. -/
def install2_body (d : Dispo) (sig : Nat) : Dispo :=
  let ohandler := (d sig).sa_handler
  let d1 := Function.update d sig { d sig with sa_handler := Handler.spine }
  if ohandler ≠ Handler.SIG_DFL then
    Function.update d1 sig { d1 sig with sa_handler := ohandler }
  else d1

/-- One iteration of the first uninstall loop: query via `sigaction`; if the
handler is the spine handler, write back the same record with the handler
slot reset to `SIG_DFL`. -/
def uninstall1_body (d : Dispo) (sig : Nat) : Dispo :=
  let sa := d sig
  if sa.sa_handler = Handler.spine then
    Function.update d sig { sa with sa_handler := Handler.SIG_DFL }
  else d

/-- One iteration of the second uninstall loop: `ohandler = signal(sig,
SIG_DFL)`, and if `ohandler` was not the spine handler, restore it with
`signal(sig, ohandler)`. -/
def uninstall2_body (d : Dispo) (sig : Nat) : Dispo :=
  let ohandler := (d sig).sa_handler
  let d1 := Function.update d sig { d sig with sa_handler := Handler.SIG_DFL }
  if ohandler ≠ Handler.spine then
    Function.update d1 sig { d1 sig with sa_handler := ohandler }
  else d1

/-- A `for (i=0; spine_fatal_signals[i]; ++i)` loop: apply the body to each
visited signal in table order. -/
def signalSweep (body : Dispo → Nat → Dispo) : List Nat → Dispo → Dispo
  | [], d => d
  | sig :: rest, d => signalSweep body rest (body d sig)

/-- `install_spine_signal_handler` from `src/error.c`: the `sigaction` loop
followed by the `signal` loop, each over the sentinel-terminated table. -/
def install_spine_signal_handler (d : Dispo) : Dispo :=
  signalSweep install2_body spine_monitored
    (signalSweep install1_body spine_monitored d)

/-- `uninstall_spine_signal_handler` from `src/error.c`: the `sigaction`
loop followed by the `signal` loop, each over the sentinel-terminated
table. -/
def uninstall_spine_signal_handler (d : Dispo) : Dispo :=
  signalSweep uninstall2_body spine_monitored
    (signalSweep uninstall1_body spine_monitored d)

/-- Per-signal effect of `install1_body` on the visited signal's record. -/
def installAct1 (sa : Sigaction) : Sigaction :=
  if sa.sa_handler = Handler.SIG_DFL then
    { sa_handler := Handler.spine, sa_mask := [], sa_flags := SA_RESTART }
  else sa

/-- Per-signal effect of `install2_body` on the visited signal's record. -/
def installAct2 (sa : Sigaction) : Sigaction :=
  if sa.sa_handler = Handler.SIG_DFL then
    { sa with sa_handler := Handler.spine }
  else sa

/-- Per-signal effect of `uninstall1_body` (and of `uninstall2_body`) on the
visited signal's record. -/
def uninstallAct (sa : Sigaction) : Sigaction :=
  if sa.sa_handler = Handler.spine then
    { sa with sa_handler := Handler.SIG_DFL }
  else sa

theorem install1_body_apply (d : Dispo) (a s : Nat) :
    install1_body d a s = if s = a then installAct1 (d s) else d s := by
  unfold install1_body installAct1
  by_cases hsa : s = a
  · subst hsa
    by_cases hdf : (d s).sa_handler = Handler.SIG_DFL <;>
      simp [hdf, Function.update]
  · by_cases hdf : (d a).sa_handler = Handler.SIG_DFL <;>
      simp [hdf, Function.update, hsa]

theorem install2_body_apply (d : Dispo) (a s : Nat) :
    install2_body d a s = if s = a then installAct2 (d s) else d s := by
  unfold install2_body installAct2
  by_cases hsa : s = a
  · subst hsa
    by_cases hdf : (d s).sa_handler = Handler.SIG_DFL <;>
      simp [hdf, Function.update]
  · by_cases hdf : (d a).sa_handler = Handler.SIG_DFL <;>
      simp [hdf, Function.update, hsa]

theorem uninstall1_body_apply (d : Dispo) (a s : Nat) :
    uninstall1_body d a s = if s = a then uninstallAct (d s) else d s := by
  unfold uninstall1_body uninstallAct
  by_cases hsa : s = a
  · subst hsa
    by_cases hdf : (d s).sa_handler = Handler.spine <;>
      simp [hdf, Function.update]
  · by_cases hdf : (d a).sa_handler = Handler.spine <;>
      simp [hdf, Function.update, hsa]

theorem uninstall2_body_apply (d : Dispo) (a s : Nat) :
    uninstall2_body d a s = if s = a then uninstallAct (d s) else d s := by
  unfold uninstall2_body uninstallAct
  by_cases hsa : s = a
  · subst hsa
    by_cases hdf : (d s).sa_handler = Handler.spine <;>
      simp [hdf, Function.update]
  · by_cases hdf : (d a).sa_handler = Handler.spine <;>
      simp [hdf, Function.update, hsa]

theorem signalSweep_apply (body : Dispo → Nat → Dispo)
    (act : Sigaction → Sigaction)
    (hb : ∀ d a s, body d a s = if s = a then act (d s) else d s)
    (hi : ∀ x, act (act x) = act x) :
    ∀ (l : List Nat) (d : Dispo) (s : Nat),
      signalSweep body l d s = if s ∈ l then act (d s) else d s := by
  intro l
  induction l with
  | nil => intro d s; simp [signalSweep]
  | cons a rest ih =>
      intro d s
      rw [signalSweep, ih]
      by_cases hsa : s = a
      · subst hsa
        by_cases hmem : s ∈ rest <;> simp [hmem, hb, hi]
      · by_cases hmem : s ∈ rest <;> simp [hmem, hb, hsa]

theorem installAct1_idem (x : Sigaction) : installAct1 (installAct1 x) = installAct1 x := by
  unfold installAct1
  by_cases h : x.sa_handler = Handler.SIG_DFL <;> simp [h]

theorem installAct2_idem (x : Sigaction) : installAct2 (installAct2 x) = installAct2 x := by
  unfold installAct2
  by_cases h : x.sa_handler = Handler.SIG_DFL <;> simp [h]

theorem uninstallAct_idem (x : Sigaction) : uninstallAct (uninstallAct x) = uninstallAct x := by
  unfold uninstallAct
  by_cases h : x.sa_handler = Handler.spine <;> simp [h]

theorem installAct2_installAct1 (sa : Sigaction) :
    installAct2 (installAct1 sa) = installAct1 sa := by
  unfold installAct1 installAct2
  by_cases h : sa.sa_handler = Handler.SIG_DFL <;> simp [h]

/-- Pointwise characterisation of `install_spine_signal_handler`: a monitored
signal whose handler is the OS default gets the spine handler with empty
mask and `SA_RESTART`; every other disposition is untouched. -/
theorem install_apply (d : Dispo) (s : Nat) :
    install_spine_signal_handler d s =
      if s ∈ spine_monitored then installAct1 (d s) else d s := by
  unfold install_spine_signal_handler
  rw [signalSweep_apply install2_body installAct2 install2_body_apply installAct2_idem,
    signalSweep_apply install1_body installAct1 install1_body_apply installAct1_idem]
  by_cases hmem : s ∈ spine_monitored <;> simp [hmem, installAct2_installAct1]

/-- Pointwise characterisation of `uninstall_spine_signal_handler`: a
monitored signal whose handler is the spine handler has the handler slot
reset to `SIG_DFL`; every other disposition is untouched. -/
theorem uninstall_apply (d : Dispo) (s : Nat) :
    uninstall_spine_signal_handler d s =
      if s ∈ spine_monitored then uninstallAct (d s) else d s := by
  unfold uninstall_spine_signal_handler
  rw [signalSweep_apply uninstall2_body uninstallAct uninstall2_body_apply uninstallAct_idem,
    signalSweep_apply uninstall1_body uninstallAct uninstall1_body_apply uninstallAct_idem]
  by_cases hmem : s ∈ spine_monitored <;> simp [hmem, uninstallAct_idem]

/-- Environment for the `execinfo` calls made on the SIGSEGV path:
`captured n` is the frame count returned by `backtrace` when `n` slots are
requested, and `symbols n` is the table returned by `backtrace_symbols` for
`n` captured frames (`none` models a NULL return). -/
structure BtEnv where
  captured : Nat → Nat
  symbols : Nat → Option (List String)

/-- One observable step of `spine_signal_handler`:
resetting a signal's disposition to default (`signal(sig, SIG_DFL)`),
storing the exit code (`set.exit_code = spine_signal`), writing a stderr
line (`fprintf(stderr, ...)`), the `backtrace` call overwriting
`set.exit_size`, and `exit(status)`. -/
inductive Event where
  | resetDisp : Nat → Event
  | setExit : Nat → Event
  | write : String → Event
  | capture : Nat → Event
  | exitCall : Nat → Event
deriving DecidableEq, Repr

/-- The `"%3d"` field of the frame line: right-justified in width three. -/
def fmt3 (n : Nat) : String :=
  if n < 10 then "  " ++ toString n
  else if n < 100 then " " ++ toString n
  else toString n

/-- One backtrace frame line, `fprintf(stderr, "%3d: %s\n", row, sym)`. -/
def frameLine (row : Nat) (sym : String) : String :=
  fmt3 row ++ ": " ++ sym

/-- The SIGSEGV-only tail of the handler after its FATAL line: the
"Generating backtrace..." line; if `exit_size` is non-zero, the `backtrace`
call and, when `backtrace_symbols` is non-NULL, one line per frame; then
`exit(1)`. -/
def segvEvents (env : BtEnv) (exit_size : Nat) : List Event :=
  [Event.write ("Generating backtrace..." ++ toString exit_size ++ " line(s)...")] ++
  (if exit_size ≠ 0 then
    [Event.capture exit_size] ++
    (match env.symbols (env.captured exit_size) with
     | some strs =>
         (List.range (env.captured exit_size)).map
           (fun row => Event.write (frameLine row (strs.getD row "")))
     | none => [])
  else []) ++
  [Event.exitCall 1]

/-- Wrap a string in single-quote characters (ASCII 39), as the format
string `"... Signal Number: '%d'"` does around the signal number. -/
def sQuote (s : String) : String :=
  String.singleton (Char.ofNat 39) ++ s ++ String.singleton (Char.ofNat 39)

/-- The `switch (spine_signal)` of `spine_signal_handler`, as the list of
observable steps it performs, given the formatted timestamp `ts`. -/
def switchEvents (env : BtEnv) (ts : String) (sig : Nat) (exit_size : Nat) :
    List Event :=
  if sig = SIGABRT then
    [Event.write (ts ++ " FATAL: Spine Interrupted by Abort Signal")]
  else if sig = SIGINT then
    [Event.write (ts ++ " FATAL: Spine Interrupted by Console Operator")]
  else if sig = SIGSEGV then
    Event.write (ts ++ " FATAL: Spine Encountered a Segmentation Fault") ::
      segvEvents env exit_size
  else if sig = SIGBUS then
    [Event.write (ts ++ " FATAL: Spine Encountered a Bus Error")]
  else if sig = SIGFPE then
    [Event.write (ts ++ " FATAL: Spine Encountered a Floating Point Exception")]
  else if sig = SIGQUIT then
    [Event.write (ts ++ " FATAL: Spine Encountered a Keyboard Quit Command")]
  else if sig = SIGPIPE then
    [Event.write (ts ++ " FATAL: Spine Encountered a Broken Pipe")]
  else
    [Event.write (ts ++ " FATAL: Spine Encountered An Unhandled Exception Signal Number: " ++
      sQuote (toString sig))]

/-- The full ordered step sequence of `spine_signal_handler` on delivery of
`sig`: `signal(sig, SIG_DFL)` first, then `set.exit_code = sig`, then the
switch body. -/
def handlerTrace (env : BtEnv) (ts : String) (sig : Nat) (exit_size : Nat) :
    List Event :=
  Event.resetDisp sig :: Event.setExit sig :: switchEvents env ts sig exit_size

/-- Result of one handler run: final disposition table, the exit-state
record's fields (`set.exit_code`, `set.exit_size`), the stderr lines
produced, and whether (and with which status) `exit` was called. -/
structure HandlerResult where
  disp : Dispo
  exit_code : Nat
  exit_size : Nat
  stderr : List String
  exited : Option Nat

/-- Interpretation of one observable step on the process state. -/
def applyEvent (env : BtEnv) (r : HandlerResult) (e : Event) : HandlerResult :=
  match e with
  | Event.resetDisp sig =>
      { r with disp := (Function.update r.disp sig
          { r.disp sig with sa_handler := Handler.SIG_DFL }) }
  | Event.setExit code => { r with exit_code := code }
  | Event.write line => { r with stderr := r.stderr ++ [line] }
  | Event.capture requested => { r with exit_size := env.captured requested }
  | Event.exitCall status => { r with exited := some status }

/-- `spine_signal_handler` from `src/error.c`: run the handler's step
sequence from the current disposition table and exit-state record. -/
def spine_signal_handler (env : BtEnv) (ts : String) (sig : Nat) (d : Dispo)
    (exit_code exit_size : Nat) : HandlerResult :=
  (handlerTrace env ts sig exit_size).foldl (applyEvent env)
    { disp := d, exit_code := exit_code, exit_size := exit_size,
      stderr := [], exited := none }

/-- The reason text of the `switch` cases other than SIGSEGV, including the
default-case fallback. -/
def nonSegvReason (sig : Nat) : String :=
  if sig = SIGABRT then "Interrupted by Abort Signal"
  else if sig = SIGINT then "Interrupted by Console Operator"
  else if sig = SIGBUS then "Encountered a Bus Error"
  else if sig = SIGFPE then "Encountered a Floating Point Exception"
  else if sig = SIGQUIT then "Encountered a Keyboard Quit Command"
  else if sig = SIGPIPE then "Encountered a Broken Pipe"
  else "Encountered An Unhandled Exception Signal Number: " ++ sQuote (toString sig)

theorem switchEvents_nonsegv (env : BtEnv) (ts : String) (sig : Nat)
    (es : Nat) (h : sig ≠ SIGSEGV) :
    switchEvents env ts sig es =
      [Event.write (ts ++ " FATAL: Spine " ++ nonSegvReason sig)] := by
  unfold switchEvents nonSegvReason
  split_ifs <;> (simp_all [String.append_assoc]; try rfl)

theorem writes_foldl (env : BtEnv) (ls : List String) (r : HandlerResult) :
    (ls.map Event.write).foldl (applyEvent env) r =
      { r with stderr := r.stderr ++ ls } := by
  induction ls generalizing r with
  | nil => simp
  | cons a as ih => simp [applyEvent, ih]

/-- Full description of one run of `spine_signal_handler` on a non-SIGSEGV
signal: the delivered signal's handler slot is reset to default, the exit
code is recorded, one FATAL line is written, and the handler returns. -/
theorem handler_nonsegv (env : BtEnv) (ts : String) (s : Nat) (d : Dispo)
    (ec es : Nat) (h : s ≠ SIGSEGV) :
    spine_signal_handler env ts s d ec es =
      { disp := (Function.update d s { d s with sa_handler := Handler.SIG_DFL }),
        exit_code := s, exit_size := es,
        stderr := [ts ++ " FATAL: Spine " ++ nonSegvReason s],
        exited := none } := by
  unfold spine_signal_handler handlerTrace
  rw [switchEvents_nonsegv env ts s es h]
  simp [applyEvent]

/-- Full description of one run of `spine_signal_handler` on SIGSEGV: the
handler slot is reset, the exit code recorded, the FATAL line and the
"Generating backtrace..." line written, then (for a non-zero requested
count) the capture and the per-frame lines when symbols resolve, and
`exit(1)` is called. -/
theorem handler_segv (env : BtEnv) (ts : String) (d : Dispo) (ec es : Nat) :
    spine_signal_handler env ts SIGSEGV d ec es =
      { disp := (Function.update d SIGSEGV
          { d SIGSEGV with sa_handler := Handler.SIG_DFL }),
        exit_code := SIGSEGV,
        exit_size := if es = 0 then es else env.captured es,
        stderr := (ts ++ " FATAL: Spine Encountered a Segmentation Fault") ::
          ("Generating backtrace..." ++ toString es ++ " line(s)...") ::
          (if es = 0 then [] else
            match env.symbols (env.captured es) with
            | some strs =>
                (List.range (env.captured es)).map
                  (fun row => frameLine row (strs.getD row ""))
            | none => []),
        exited := some 1 } := by
  by_cases hes : es = 0
  · unfold spine_signal_handler handlerTrace switchEvents segvEvents
    simp [hes, applyEvent, SIGSEGV, SIGABRT, SIGINT]
  · rcases hsym : env.symbols (env.captured es) with _ | strs
    · unfold spine_signal_handler handlerTrace switchEvents segvEvents
      simp [hes, hsym, applyEvent, SIGSEGV, SIGABRT, SIGINT]
    · have htr : handlerTrace env ts SIGSEGV es =
        ([Event.resetDisp SIGSEGV, Event.setExit SIGSEGV,
          Event.write (ts ++ " FATAL: Spine Encountered a Segmentation Fault"),
          Event.write ("Generating backtrace..." ++ toString es ++ " line(s)..."),
          Event.capture es] ++
          ((List.range (env.captured es)).map
              (fun row => frameLine row (strs.getD row ""))).map Event.write) ++
          [Event.exitCall 1] := by
        simp [handlerTrace, switchEvents, segvEvents, hes, hsym,
          SIGSEGV, SIGABRT, SIGINT, List.map_map, Function.comp]
      unfold spine_signal_handler
      rw [htr, List.foldl_append, List.foldl_append, writes_foldl]
      simp [applyEvent, hes, hsym]

theorem resetDisp_not_mem_switchEvents (env : BtEnv) (ts : String)
    (sig es t : Nat) : Event.resetDisp t ∉ switchEvents env ts sig es := by
  unfold switchEvents segvEvents
  rcases hsym : env.symbols (env.captured es) with _ | strs <;>
    split_ifs <;> simp [hsym]

theorem setExit_not_mem_switchEvents (env : BtEnv) (ts : String)
    (sig es c : Nat) : Event.setExit c ∉ switchEvents env ts sig es := by
  unfold switchEvents segvEvents
  rcases hsym : env.symbols (env.captured es) with _ | strs <;>
    split_ifs <;> simp [hsym]

/-- An all-default disposition table, used to evaluate the theorems on a
concrete input. -/
def d0 : Dispo :=
  fun _ => { sa_handler := Handler.SIG_DFL, sa_mask := [], sa_flags := 0 }

/-- A backtrace environment whose symbol resolution always returns NULL,
used to evaluate the theorems on a concrete input. -/
def envNull : BtEnv :=
  { captured := fun n => n, symbols := fun _ => none }

/-- C1: for every monitored signal, install changes the disposition only
when the current handler is the OS default (installing the spine handler),
uninstall changes it only when the current handler is exactly the spine
handler (restoring the default), and a disposition owned by any other
component is left unchanged by both operations. -/
theorem claim_C1_noninterference (d : Dispo) (s : Nat)
    (hs : s ∈ spine_monitored) :
    (install_spine_signal_handler d s =
      if (d s).sa_handler = Handler.SIG_DFL then
        { sa_handler := Handler.spine, sa_mask := [], sa_flags := SA_RESTART }
      else d s) ∧
    (uninstall_spine_signal_handler d s =
      if (d s).sa_handler = Handler.spine then
        { d s with sa_handler := Handler.SIG_DFL }
      else d s) := by
  constructor
  · rw [install_apply, if_pos hs]; rfl
  · rw [uninstall_apply, if_pos hs]; rfl

theorem claim_C1_noninterference_witness :
    SIGINT ∈ spine_monitored ∧
    ((install_spine_signal_handler d0 SIGINT =
      if (d0 SIGINT).sa_handler = Handler.SIG_DFL then
        { sa_handler := Handler.spine, sa_mask := [], sa_flags := SA_RESTART }
      else d0 SIGINT) ∧
    (uninstall_spine_signal_handler d0 SIGINT =
      if (d0 SIGINT).sa_handler = Handler.spine then
        { d0 SIGINT with sa_handler := Handler.SIG_DFL }
      else d0 SIGINT)) :=
  ⟨by decide, claim_C1_noninterference d0 SIGINT (by decide)⟩

/-- C2: on SIGSEGV the handler writes the Segmentation Fault line, the
"Generating backtrace..." line and zero or more frame lines indexed from
zero, then terminates with exit status 1; no other monitored signal makes
the handler itself terminate the process. -/
theorem claim_C2_segv_output_and_exit (env : BtEnv) (ts : String) (d : Dispo)
    (ec es s : Nat) (_hs : s ∈ spine_monitored) :
    (s = SIGSEGV →
      ∃ (k : Nat) (syms : Nat → String),
        (spine_signal_handler env ts s d ec es).stderr =
          (ts ++ " FATAL: Spine Encountered a Segmentation Fault") ::
          ("Generating backtrace..." ++ toString es ++ " line(s)...") ::
          (List.range k).map (fun row => frameLine row (syms row)) ∧
        (spine_signal_handler env ts s d ec es).exited = some 1) ∧
    (s ≠ SIGSEGV → (spine_signal_handler env ts s d ec es).exited = none) := by
  constructor
  · intro hseg
    subst hseg
    rw [handler_segv]
    by_cases hes : es = 0
    · exact ⟨0, fun _ => "", by simp [hes]⟩
    · rcases hsym : env.symbols (env.captured es) with _ | strs
      · exact ⟨0, fun _ => "", by simp [hes, hsym]⟩
      · exact ⟨env.captured es, fun row => strs.getD row "",
          by simp [hes, hsym]⟩
  · intro hseg
    rw [handler_nonsegv env ts s d ec es hseg]

theorem claim_C2_segv_output_and_exit_witness :
    SIGSEGV ∈ spine_monitored ∧
    (∃ (k : Nat) (syms : Nat → String),
      (spine_signal_handler envNull "TS" SIGSEGV d0 0 0).stderr =
        ("TS" ++ " FATAL: Spine Encountered a Segmentation Fault") ::
        ("Generating backtrace..." ++ toString 0 ++ " line(s)...") ::
        (List.range k).map (fun row => frameLine row (syms row)) ∧
      (spine_signal_handler envNull "TS" SIGSEGV d0 0 0).exited = some 1) :=
  ⟨by decide,
    (claim_C2_segv_output_and_exit envNull "TS" d0 0 0 SIGSEGV (by decide)).1 rfl⟩

/-- C3: a monitored signal whose disposition is the OS default before
install has, after install followed by uninstall, its handler slot equal to
the OS default again — exactly what it was before install. -/
theorem claim_C3_roundtrip (d : Dispo) (s : Nat) (hs : s ∈ spine_monitored)
    (hdef : (d s).sa_handler = Handler.SIG_DFL) :
    (uninstall_spine_signal_handler
        (install_spine_signal_handler d) s).sa_handler = Handler.SIG_DFL ∧
    (uninstall_spine_signal_handler
        (install_spine_signal_handler d) s).sa_handler = (d s).sa_handler := by
  rw [uninstall_apply, if_pos hs, install_apply, if_pos hs]
  simp [installAct1, uninstallAct, hdef]

theorem claim_C3_roundtrip_witness :
    SIGINT ∈ spine_monitored ∧ (d0 SIGINT).sa_handler = Handler.SIG_DFL ∧
    ((uninstall_spine_signal_handler
        (install_spine_signal_handler d0) SIGINT).sa_handler = Handler.SIG_DFL ∧
    (uninstall_spine_signal_handler
        (install_spine_signal_handler d0) SIGINT).sa_handler =
      (d0 SIGINT).sa_handler) :=
  ⟨by decide, by decide, claim_C3_roundtrip d0 SIGINT (by decide) (by decide)⟩

/-- C4: installing twice leaves every monitored signal's disposition in
exactly the same state as installing once, from any starting table. -/
theorem claim_C4_install_idempotent (d : Dispo) (s : Nat)
    (hs : s ∈ spine_monitored) :
    install_spine_signal_handler (install_spine_signal_handler d) s =
      install_spine_signal_handler d s := by
  rw [install_apply, if_pos hs, install_apply, if_pos hs]
  exact installAct1_idem (d s)

theorem claim_C4_install_idempotent_witness :
    SIGINT ∈ spine_monitored ∧
    install_spine_signal_handler (install_spine_signal_handler d0) SIGINT =
      install_spine_signal_handler d0 SIGINT :=
  ⟨by decide, claim_C4_install_idempotent d0 SIGINT (by decide)⟩

/-- C5: for every delivered monitored signal other than SIGSEGV, the handler
writes exactly one stderr line `<timestamp> FATAL: Spine <reason>` with the
reason selected by signal identity (generic quoted-number fallback for
monitored signals without a named message, such as SIGSYS), and records the
signal number in the exit-state code. -/
theorem claim_C5_message_selection (env : BtEnv) (ts : String) (d : Dispo)
    (ec es s : Nat) (_hs : s ∈ spine_monitored) (hseg : s ≠ SIGSEGV) :
    (spine_signal_handler env ts s d ec es).stderr =
      [ts ++ " FATAL: Spine " ++
        (if s = SIGABRT then "Interrupted by Abort Signal"
         else if s = SIGINT then "Interrupted by Console Operator"
         else if s = SIGBUS then "Encountered a Bus Error"
         else if s = SIGFPE then "Encountered a Floating Point Exception"
         else if s = SIGQUIT then "Encountered a Keyboard Quit Command"
         else if s = SIGPIPE then "Encountered a Broken Pipe"
         else "Encountered An Unhandled Exception Signal Number: " ++
           sQuote (toString s))] ∧
    (spine_signal_handler env ts s d ec es).exit_code = s := by
  rw [handler_nonsegv env ts s d ec es hseg]
  exact ⟨by simp [nonSegvReason, hseg], rfl⟩

theorem claim_C5_message_selection_witness :
    SIGINT ∈ spine_monitored ∧ SIGINT ≠ SIGSEGV ∧
    ((spine_signal_handler envNull "TS" SIGINT d0 0 0).stderr =
      ["TS FATAL: Spine Interrupted by Console Operator"] ∧
    (spine_signal_handler envNull "TS" SIGINT d0 0 0).exit_code = SIGINT) := by
  have h := claim_C5_message_selection envNull "TS" d0 0 0 SIGINT
    (by decide) (by decide)
  refine ⟨by decide, by decide, ?_, h.2⟩
  rw [h.1]
  rfl

/-- C6: the handler's very first step resets the delivered signal's
disposition to the OS default, before the exit code is stored and before
any write, capture or exit step; consequently after the handler runs the
delivered signal's handler slot is the OS default. -/
theorem claim_C6_reset_first (env : BtEnv) (ts : String) (s : Nat)
    (d : Dispo) (ec es : Nat) :
    (∃ rest, handlerTrace env ts s es =
        Event.resetDisp s :: Event.setExit s :: rest ∧
        ∀ e ∈ rest, (∀ t, e ≠ Event.resetDisp t) ∧
          (∀ c, e ≠ Event.setExit c)) ∧
    ((spine_signal_handler env ts s d ec es).disp s).sa_handler =
      Handler.SIG_DFL := by
  constructor
  · exact ⟨switchEvents env ts s es, rfl, fun e he =>
      ⟨fun t heq => resetDisp_not_mem_switchEvents env ts s es t (heq ▸ he),
       fun c heq => setExit_not_mem_switchEvents env ts s es c (heq ▸ he)⟩⟩
  · by_cases hseg : s = SIGSEGV
    · subst hseg
      rw [handler_segv]
      simp
    · rw [handler_nonsegv env ts s d ec es hseg]
      simp

/-- C7: a monitored signal whose disposition is the OS default when install
runs ends with the spine handler installed with an empty blocked-signal
mask and the `SA_RESTART` flag. -/
theorem claim_C7_install_config (d : Dispo) (s : Nat)
    (hs : s ∈ spine_monitored) (hdef : (d s).sa_handler = Handler.SIG_DFL) :
    install_spine_signal_handler d s =
      { sa_handler := Handler.spine, sa_mask := [], sa_flags := SA_RESTART } := by
  rw [install_apply, if_pos hs]
  simp [installAct1, hdef]

theorem claim_C7_install_config_witness :
    SIGINT ∈ spine_monitored ∧ (d0 SIGINT).sa_handler = Handler.SIG_DFL ∧
    install_spine_signal_handler d0 SIGINT =
      { sa_handler := Handler.spine, sa_mask := [], sa_flags := SA_RESTART } :=
  ⟨by decide, by decide, claim_C7_install_config d0 SIGINT (by decide) (by decide)⟩

/-- C8: on the SIGSEGV path, a zero requested frame count yields the
"Generating backtrace...0 line(s)..." message with no capture step and no
frame lines, and a NULL symbol table skips the frame loop; in both degraded
cases the handler still completes and calls `exit(1)`. -/
theorem claim_C8_backtrace_degradation (env : BtEnv) (ts : String)
    (d : Dispo) (ec es : Nat) :
    (es = 0 →
      (spine_signal_handler env ts SIGSEGV d ec es).stderr =
        [ts ++ " FATAL: Spine Encountered a Segmentation Fault",
         "Generating backtrace..." ++ toString es ++ " line(s)..."] ∧
      (∀ q, Event.capture q ∉ handlerTrace env ts SIGSEGV es) ∧
      (spine_signal_handler env ts SIGSEGV d ec es).exit_size = es ∧
      (spine_signal_handler env ts SIGSEGV d ec es).exited = some 1) ∧
    (env.symbols (env.captured es) = none →
      (spine_signal_handler env ts SIGSEGV d ec es).stderr =
        [ts ++ " FATAL: Spine Encountered a Segmentation Fault",
         "Generating backtrace..." ++ toString es ++ " line(s)..."] ∧
      (spine_signal_handler env ts SIGSEGV d ec es).exited = some 1) := by
  constructor
  · intro hes
    refine ⟨by rw [handler_segv]; simp [hes], ?_, by rw [handler_segv]; simp [hes],
      by rw [handler_segv]⟩
    intro q
    unfold handlerTrace switchEvents segvEvents
    simp [hes, SIGSEGV, SIGABRT, SIGINT]
  · intro hsym
    refine ⟨?_, by rw [handler_segv]⟩
    rw [handler_segv]
    by_cases hes : es = 0 <;> simp [hes, hsym]

theorem claim_C8_backtrace_degradation_witness :
    ((spine_signal_handler envNull "TS" SIGSEGV d0 0 0).stderr =
      ["TS" ++ " FATAL: Spine Encountered a Segmentation Fault",
       "Generating backtrace..." ++ toString 0 ++ " line(s)..."] ∧
    (∀ q, Event.capture q ∉ handlerTrace envNull "TS" SIGSEGV 0) ∧
    (spine_signal_handler envNull "TS" SIGSEGV d0 0 0).exit_size = 0 ∧
    (spine_signal_handler envNull "TS" SIGSEGV d0 0 0).exited = some 1) ∧
    ((spine_signal_handler envNull "TS" SIGSEGV d0 0 0).stderr =
      ["TS" ++ " FATAL: Spine Encountered a Segmentation Fault",
       "Generating backtrace..." ++ toString 0 ++ " line(s)..."] ∧
    (spine_signal_handler envNull "TS" SIGSEGV d0 0 0).exited = some 1) :=
  ⟨(claim_C8_backtrace_degradation envNull "TS" d0 0 0).1 rfl,
   (claim_C8_backtrace_degradation envNull "TS" d0 0 0).2 rfl⟩

/-- C9: if no monitored signal currently has the spine handler (in
particular when install was never called), uninstall leaves every monitored
signal's disposition exactly as it was. -/
theorem claim_C9_uninstall_identity (d : Dispo) (s : Nat)
    (hall : ∀ t ∈ spine_monitored, (d t).sa_handler ≠ Handler.spine)
    (hs : s ∈ spine_monitored) :
    uninstall_spine_signal_handler d s = d s := by
  rw [uninstall_apply, if_pos hs]
  simp [uninstallAct, hall s hs]

theorem claim_C9_uninstall_identity_witness :
    (∀ t ∈ spine_monitored, (d0 t).sa_handler ≠ Handler.spine) ∧
    SIGINT ∈ spine_monitored ∧
    uninstall_spine_signal_handler d0 SIGINT = d0 SIGINT :=
  ⟨by decide, by decide,
    claim_C9_uninstall_identity d0 SIGINT (by decide) (by decide)⟩

/-- C10: one handler run mutates only the delivered signal's own
disposition (resetting its handler slot to the OS default) and the shared
exit state — the exit code always, the recorded frame count only on the
SIGSEGV path; every other signal's disposition is untouched. -/
theorem claim_C10_handler_frame (env : BtEnv) (ts : String) (s : Nat)
    (d : Dispo) (ec es : Nat) :
    (∀ t, t ≠ s → (spine_signal_handler env ts s d ec es).disp t = d t) ∧
    (spine_signal_handler env ts s d ec es).disp s =
      { d s with sa_handler := Handler.SIG_DFL } ∧
    (spine_signal_handler env ts s d ec es).exit_code = s ∧
    (s ≠ SIGSEGV → (spine_signal_handler env ts s d ec es).exit_size = es) := by
  by_cases hseg : s = SIGSEGV
  · subst hseg
    rw [handler_segv]
    refine ⟨fun t ht => ?_, ?_, rfl, fun h => absurd rfl h⟩
    · simp [Function.update_noteq ht]
    · simp
  · rw [handler_nonsegv env ts s d ec es hseg]
    refine ⟨fun t ht => ?_, ?_, rfl, fun _ => rfl⟩
    · simp [Function.update_noteq ht]
    · simp

theorem claim_C10_handler_frame_witness :
    SIGQUIT ≠ SIGINT ∧
    (spine_signal_handler envNull "TS" SIGINT d0 0 0).disp SIGQUIT =
      d0 SIGQUIT ∧
    (spine_signal_handler envNull "TS" SIGINT d0 0 0).disp SIGINT =
      { d0 SIGINT with sa_handler := Handler.SIG_DFL } ∧
    (spine_signal_handler envNull "TS" SIGINT d0 0 0).exit_code = SIGINT :=
  ⟨by decide,
   (claim_C10_handler_frame envNull "TS" SIGINT d0 0 0).1 SIGQUIT (by decide),
   (claim_C10_handler_frame envNull "TS" SIGINT d0 0 0).2.1,
   (claim_C10_handler_frame envNull "TS" SIGINT d0 0 0).2.2.1⟩

end Spine
